import Mathlib

/-!
# Verification of the Brave Search MCP tools (`src/brave.py`)

Shallow embedding of the two search tools `brave_web_search` and
`brave_local_search` and of their helpers `_request` and `_format_address`.

JSON values are modelled by the inductive type `Json` (numbers as integers;
no claim performs numeric arithmetic on provider data).  Python `dict.get`,
truthiness, iteration and `str.join` are modelled faithfully, including the
exceptions they can raise on ill-typed data: a Python function that can raise
is embedded as an `Option`-valued function, `none` meaning an uncaught
exception.

The network is modelled by an oracle `Env.net : String → Except String Json`
mapping a full request URL to either the parsed JSON body (HTTP 2xx) or the
error string all failure classes collapse into.  Each tool returns, besides
its `BraveResult`, the ordered list of URLs it actually requested, so that
claims about which calls are (not) issued can be stated.
-/

/-- JSON values as produced by `response.json()`. -/
inductive Json where
  | null : Json
  | bool : Bool → Json
  | num : Int → Json
  | str : String → Json
  | arr : List Json → Json
  | obj : List (String × Json) → Json

/-- Python truthiness (`if x:`) of a JSON value. -/
def Json.truthy : Json → Bool
  | .null => false
  | .bool b => b
  | .num n => n != 0
  | .str s => s != ""
  | .arr xs => !xs.isEmpty
  | .obj fs => !fs.isEmpty

/-- Python `d.get(k)` (default `None`): `none` models the `AttributeError`
raised when the receiver is not a dict. -/
def Json.get? : Json → String → Option Json
  | .obj fs, k => some ((fs.lookup k).getD Json.null)
  | _, _ => none

/-- Python `d.get(k, default)`: `none` models the `AttributeError` raised when
the receiver is not a dict. -/
def Json.getD : Json → String → Json → Option Json
  | .obj fs, k, d => some ((fs.lookup k).getD d)
  | _, _, _ => none

/-- Python iteration over a JSON value: lists yield their elements, dicts
their keys, strings their characters; other values raise `TypeError`. -/
def Json.pyIter : Json → Option (List Json)
  | .arr xs => some xs
  | .obj fs => some (fs.map fun p => Json.str p.1)
  | .str s => some (s.data.map fun c => Json.str (String.singleton c))
  | _ => none

/-- A `str.join` element must be an actual string, else `TypeError`. -/
def Json.asStr : Json → Option String
  | .str s => some s
  | _ => none

/-- Python single-quote character, used by `repr` of strings. -/
def pyQuote : String := String.singleton (Char.ofNat 39)

mutual

/-- Python `repr` of a JSON value (string escaping inside `repr` is not
modelled; `repr` is only reached for container values interpolated into an
`ids=` parameter, which are plain strings in practice). -/
def Json.pyRepr : Json → String
  | .null => "None"
  | .bool b => if b then "True" else "False"
  | .num n => toString n
  | .str s => pyQuote ++ s ++ pyQuote
  | .arr xs => "[" ++ Json.pyReprList xs ++ "]"
  | .obj fs => "\x7b" ++ Json.pyReprFields fs ++ "\x7d"

def Json.pyReprList : List Json → String
  | [] => ""
  | [x] => Json.pyRepr x
  | x :: xs => Json.pyRepr x ++ ", " ++ Json.pyReprList xs

def Json.pyReprFields : List (String × Json) → String
  | [] => ""
  | [(k, v)] => pyQuote ++ k ++ pyQuote ++ ": " ++ Json.pyRepr v
  | (k, v) :: fs =>
      pyQuote ++ k ++ pyQuote ++ ": " ++ Json.pyRepr v ++ ", " ++ Json.pyReprFields fs

end

/-- Python `str()` as performed by f-string interpolation. -/
def Json.pyStr : Json → String
  | .str s => s
  | j => Json.pyRepr j

/-- Python `d.get(key)` where the key is itself a JSON value.  Dict keys
parsed from JSON are strings, so a non-string hashable key simply misses
(`None`); an unhashable key (list/dict) raises `TypeError`; a non-dict
receiver raises `AttributeError`. -/
def Json.dictGet : Json → Json → Option Json
  | .obj fs, .str s => some ((fs.lookup s).getD Json.null)
  | .obj _, .null => some Json.null
  | .obj _, .bool _ => some Json.null
  | .obj _, .num _ => some Json.null
  | .obj _, .arr _ => none
  | .obj _, .obj _ => none
  | _, _ => none

/-- Python `r[k]` with a string key: `KeyError` when missing, and a string
subscript raises on every non-dict receiver. -/
def Json.index : Json → String → Option Json
  | .obj fs, k => fs.lookup k
  | _, _ => none

/-! ## URL percent-encoding: `urllib.parse.quote(query, safe="")` -/

/-- UTF-8 bytes of a character (RFC 3629). -/
def utf8Bytes (c : Char) : List Nat :=
  let n := c.toNat
  if n < 0x80 then [n]
  else if n < 0x800 then [0xC0 ||| (n >>> 6), 0x80 ||| (n &&& 0x3F)]
  else if n < 0x10000 then
    [0xE0 ||| (n >>> 12), 0x80 ||| ((n >>> 6) &&& 0x3F), 0x80 ||| (n &&& 0x3F)]
  else
    [0xF0 ||| (n >>> 18), 0x80 ||| ((n >>> 12) &&& 0x3F),
      0x80 ||| ((n >>> 6) &&& 0x3F), 0x80 ||| (n &&& 0x3F)]

/-- The bytes `urllib.parse.quote` never encodes: ASCII letters, digits and
`_.-~`.  With `safe=""` every other byte is percent-encoded. -/
def unreservedByte (b : Nat) : Bool :=
  (65 ≤ b && b ≤ 90) || (97 ≤ b && b ≤ 122) || (48 ≤ b && b ≤ 57) ||
    b == 45 || b == 46 || b == 95 || b == 126

/-- Uppercase hexadecimal digit. -/
def hexUpper (n : Nat) : Char :=
  if n < 10 then Char.ofNat (48 + n) else Char.ofNat (55 + n)

/-- Percent-encode a single byte, or pass it through if unreserved. -/
def quoteByte (b : Nat) : String :=
  if unreservedByte b then String.singleton (Char.ofNat b)
  else "%" ++ String.singleton (hexUpper (b / 16)) ++ String.singleton (hexUpper (b % 16))

/-- Model of `urllib.parse.quote(s, safe="")`: UTF-8 encode, then percent-encode every
byte outside the unreserved set. -/
def quote (s : String) : String :=
  String.join (s.data.map fun c => String.join ((utf8Bytes c).map quoteByte))

/-! ## The gateway: `BraveResult` and `_request` -/

/-- The pydantic model `BraveResult`: `success: bool`, `data: Any = None`,
`error: str | None = None`.  `Json.null` stands for Python `None` in `data`. -/
structure BraveResult where
  success : Bool
  data : Json := Json.null
  error : Option String := none

/-- Process environment and network: `BRAVE_API_KEY` as read at import time,
and the oracle giving, for a full request URL, either the parsed JSON body of
a 2xx response or the error string that the `except` clause produces for any
failure (HTTP status error, network error, timeout, JSON parse error). -/
structure Env where
  BRAVE_API_KEY : String
  net : String → Except String Json

def BRAVE_BASE_URL : String := "https://api.search.brave.com/res/v1"

/-- Model of `_request(path)`, returning the result together with the ordered list of
URLs for which an HTTP request was actually issued (empty when the missing
credential short-circuits the call). -/
def _request (env : Env) (path : String) : BraveResult × List String :=
  if env.BRAVE_API_KEY = "" then
    ({ success := false, error := some "BRAVE_API_KEY environment variable not set" }, [])
  else
    let url := BRAVE_BASE_URL ++ path
    match env.net url with
    | .ok j => ({ success := true, data := j }, [url])
    | .error e => ({ success := false, error := some e }, [url])

/-- Model of `_format_address(address)`. -/
def _format_address (address : Json) : Option String :=
  if !address.truthy then some "N/A"
  else do
    let s1 ← address.getD "streetAddress" (Json.str "")
    let s2 ← address.getD "addressLocality" (Json.str "")
    let s3 ← address.getD "addressRegion" (Json.str "")
    let s4 ← address.getD "postalCode" (Json.str "")
    let parts ← ([s1, s2, s3, s4].filter Json.truthy).mapM Json.asStr
    let formatted := String.intercalate ", " parts
    some (if formatted = "" then "N/A" else formatted)

/-! ## `brave_web_search` -/

/-- The path built by `brave_web_search` (the count and offset it receives
are already clamped at that point). -/
def webSearchPath (query : String) (count offset : Int) : String :=
  "/web/search?q=" ++ quote query ++ "&count=" ++ toString count ++
    "&offset=" ++ toString offset

/-- One entry of the web-results mapping: `title`/`description`/`url`
defaulting to the empty string (raises when the entry is not a dict). -/
def webHitOf (r : Json) : Option Json := do
  let t ← r.getD "title" (Json.str "")
  let d ← r.getD "description" (Json.str "")
  let u ← r.getD "url" (Json.str "")
  some (Json.obj [("title", t), ("description", d), ("url", u)])

/-- Model of `brave_web_search(query, count=10, offset=0)`.  The second component is
the ordered list of URLs requested; `none` models an uncaught exception while
shaping ill-typed provider data. -/
def brave_web_search (env : Env) (query : String)
    (count : Int := 10) (offset : Int := 0) : Option (BraveResult × List String) :=
  let count := max 1 (min count 20)
  let offset := max 0 (min offset 9)
  let path := webSearchPath query count offset
  match _request env path with
  | (result, tr) =>
    if result.success then
      match result.data.getD "web" (Json.obj []) with
      | none => none
      | some web =>
        match web.getD "results" (Json.arr []) with
        | none => none
        | some wres =>
          match wres.pyIter with
          | none => none
          | some items =>
            match items.mapM webHitOf with
            | none => none
            | some hits => some ({ result with data := Json.arr hits }, tr)
    else
      some (result, tr)

/-! ## `brave_local_search` -/

/-- The path of the locations-filtered first request of `brave_local_search`
(the count it receives is already clamped at that point). -/
def localSearchPath (query : String) (count : Int) : String :=
  "/web/search?q=" ++ quote query ++ "&search_lang=en&result_filter=locations&count=" ++
    toString count

/-- Lines 166-167: extract `locations.results` and collect the `id` fields
that pass the truthiness filter. -/
def locationIdsOf (data : Json) : Option (List Json) :=
  match data.getD "locations" (Json.obj []) with
  | none => none
  | some locsObj =>
    match locsObj.getD "results" (Json.arr []) with
    | none => none
    | some res =>
      match res.pyIter with
      | none => none
      | some locations =>
        match locations.mapM (fun loc => loc.get? "id") with
        | none => none
        | some ids => some (ids.filter Json.truthy)

/-- One record of the fallback remap: name from `r["title"]`, address forced
to `"N/A"`, description from `r["description"]`. -/
def fallbackRemap (r : Json) : Option Json := do
  let t ← r.index "title"
  let d ← r.index "description"
  some (Json.obj [("name", t), ("address", Json.str "N/A"), ("description", d)])

/-- Line 180: `"&".join(f"ids=..." for id_ in location_ids if id_)`. -/
def idsParam (location_ids : List Json) : String :=
  String.intercalate "&" ((location_ids.filter Json.truthy).map fun i => "ids=" ++ i.pyStr)

/-- The body of the result-formatting loop (lines 194-207), building one
business record from one POI record. -/
def formatPoi (descriptions_map : Json) (poi : Json) : Option Json :=
  match poi.getD "id" (Json.str "") with
  | none => none
  | some poi_id =>
  match poi.getD "rating" (Json.obj []) with
  | none => none
  | some r0 =>
  let rating_info := if r0.truthy then r0 else Json.obj []
  match poi.getD "name" (Json.str "Unknown") with
  | none => none
  | some name =>
  match poi.get? "address" with
  | none => none
  | some addr =>
  match _format_address addr with
  | none => none
  | some address =>
  match poi.get? "phone" with
  | none => none
  | some phone =>
  match rating_info.get? "ratingValue" with
  | none => none
  | some rating =>
  match rating_info.getD "ratingCount" (Json.num 0) with
  | none => none
  | some rating_count =>
  match poi.get? "priceRange" with
  | none => none
  | some price_range =>
  match poi.getD "openingHours" (Json.arr []) with
  | none => none
  | some oh =>
  match oh.pyIter with
  | none => none
  | some ohItems =>
  match ohItems.mapM Json.asStr with
  | none => none
  | some ohStrs =>
  let joined := String.intercalate ", " ohStrs
  let hours := if joined = "" then Json.null else Json.str joined
  match descriptions_map.dictGet poi_id with
  | none => none
  | some description =>
  some (Json.obj [("name", name), ("address", Json.str address), ("phone", phone),
    ("rating", rating), ("rating_count", rating_count), ("price_range", price_range),
    ("hours", hours), ("description", description)])

/-- Model of `brave_local_search(query, count=5)`.  The second component is the
ordered list of URLs requested; `none` models an uncaught exception while
shaping ill-typed provider data. -/
def brave_local_search (env : Env) (query : String)
    (count : Int := 5) : Option (BraveResult × List String) :=
  let count := max 1 (min count 20)
  let path := localSearchPath query count
  match _request env path with
  | (result, tr0) =>
    if result.success then
      match locationIdsOf result.data with
      | none => none
      | some location_ids =>
        if location_ids.isEmpty then
          -- If no local results, fall back to web search
          match brave_web_search env query count with
          | none => none
          | some (web_result, tr1) =>
            if web_result.success then
              match web_result.data.pyIter with
              | none => none
              | some items =>
                match items.mapM fallbackRemap with
                | none => none
                | some mapped =>
                  some ({ web_result with data := Json.arr mapped }, tr0 ++ tr1)
            else
              some (web_result, tr0 ++ tr1)
        else
          -- Get POI details
          let ids_param := idsParam location_ids
          match _request env ("/local/pois?" ++ ids_param) with
          | (pois_result, tr1) =>
            if pois_result.success then
              -- Get descriptions (optional)
              match _request env ("/local/descriptions?" ++ ids_param) with
              | (desc_result, tr2) =>
                match
                  (if desc_result.success then
                     desc_result.data.getD "descriptions" (Json.obj [])
                   else some (Json.obj [])) with
                | none => none
                | some descriptions_map =>
                  match pois_result.data.getD "results" (Json.arr []) with
                  | none => none
                  | some pres =>
                    match pres.pyIter with
                    | none => none
                    | some pois =>
                      match pois.mapM (formatPoi descriptions_map) with
                      | none => none
                      | some results =>
                        some ({ success := true, data := Json.arr results,
                                error := none }, tr0 ++ tr1 ++ tr2)
            else
              some (pois_result, tr0 ++ tr1)
    else
      some (result, tr0)

/-! ## Full request URLs (statement abbreviations) -/

/-- Full URL of a `brave_web_search` request (count and offset already
clamped). -/
def webSearchURL (query : String) (count offset : Int) : String :=
  BRAVE_BASE_URL ++ webSearchPath query count offset

/-- Full URL of the locations-filtered first request of `brave_local_search`
(count already clamped). -/
def localSearchURL (query : String) (count : Int) : String :=
  BRAVE_BASE_URL ++ localSearchPath query count

/-- Full URL of the POI-details request for a given id list. -/
def poisURL (location_ids : List Json) : String :=
  BRAVE_BASE_URL ++ ("/local/pois?" ++ idsParam location_ids)

/-- Full URL of the descriptions request for a given id list. -/
def descriptionsURL (location_ids : List Json) : String :=
  BRAVE_BASE_URL ++ ("/local/descriptions?" ++ idsParam location_ids)

/-! ## Concrete fixtures used by witnesses and counterexamples -/

/-- Environment with no credential configured. -/
def envNoKey : Env := { BRAVE_API_KEY := "", net := fun _ => Except.error "unreachable" }

/-- Environment with a credential but a network where every request fails. -/
def envAllFail : Env := { BRAVE_API_KEY := "k", net := fun _ => Except.error "boom" }

/-- Locations response carrying two non-empty ids. -/
def jTwoIds : Json := Json.obj [("locations", Json.obj [("results", Json.arr
  [Json.obj [("id", Json.str "a")], Json.obj [("id", Json.str "b")]])])]

/-- Environment for the fail-fast scenario: the locations lookup succeeds with
two ids, every other request (in particular the POI details one) fails. -/
def envPoisFail : Env :=
  { BRAVE_API_KEY := "k"
    net := fun u => if u = localSearchURL "x" 3 then Except.ok jTwoIds
      else Except.error "poisboom" }

/-- POI-details response carrying one POI. -/
def jPois : Json := Json.obj [("results", Json.arr
  [Json.obj [("id", Json.str "a"), ("name", Json.str "Cafe")]])]

/-- Environment for the degraded scenario: locations and POI details succeed,
the descriptions request fails. -/
def envDescFail : Env :=
  { BRAVE_API_KEY := "k"
    net := fun u =>
      if u = localSearchURL "x" 3 then Except.ok jTwoIds
      else if u = poisURL [Json.str "a", Json.str "b"] then Except.ok jPois
      else Except.error "descboom" }

/-- The business record `formatPoi` builds from the single POI of `jPois`
with an empty descriptions map. -/
def cafeRecord : Json := Json.obj [("name", Json.str "Cafe"),
  ("address", Json.str "N/A"), ("phone", Json.null), ("rating", Json.null),
  ("rating_count", Json.num 0), ("price_range", Json.null), ("hours", Json.null),
  ("description", Json.null)]

/-- A POI whose opening-hours list is non-empty but consists of one empty
string: the join is the empty string and the code stores a null. -/
def poiEmptyHour : Json := Json.obj [("openingHours", Json.arr [Json.str ""])]

/-- A POI with two opening-hour strings. -/
def poiTwoHours : Json :=
  Json.obj [("openingHours", Json.arr [Json.str "Mon", Json.str "Tue"])]

/-- The record `formatPoi` builds from `poiTwoHours`. -/
def twoHoursRecord : Json := Json.obj [("name", Json.str "Unknown"),
  ("address", Json.str "N/A"), ("phone", Json.null), ("rating", Json.null),
  ("rating_count", Json.num 0), ("price_range", Json.null),
  ("hours", Json.str "Mon, Tue"), ("description", Json.null)]

/-- A POI whose `rating` field is explicitly null. -/
def poiNullRating : Json := Json.obj [("rating", Json.null), ("name", Json.str "Bar")]

/-- Locations response with an empty results list (no ids). -/
def jNoLocations : Json := Json.obj [("locations", Json.obj [("results", Json.arr [])])]

/-- Web response with one hit. -/
def jWebOneHit : Json := Json.obj [("web", Json.obj [("results", Json.arr
  [Json.obj [("title", Json.str "T"), ("description", Json.str "D"),
    ("url", Json.str "U")]])])]

/-- Environment for the fallback scenario: the locations lookup succeeds with
zero ids and the inner web search succeeds with one hit. -/
def envFallback : Env :=
  { BRAVE_API_KEY := "k"
    net := fun u =>
      if u = localSearchURL "x" 3 then Except.ok jNoLocations
      else if u = webSearchURL "x" 3 0 then Except.ok jWebOneHit
      else Except.error "boom" }

/-! # Lemmas -/

theorem _request_key_missing (env : Env) (path : String) (h : env.BRAVE_API_KEY = "") :
    _request env path =
      ({ success := false, data := Json.null,
         error := some "BRAVE_API_KEY environment variable not set" }, []) := by
  simp [_request, h]

theorem _request_ok (env : Env) (path : String) (j : Json)
    (hk : env.BRAVE_API_KEY ≠ "")
    (h : env.net (BRAVE_BASE_URL ++ path) = Except.ok j) :
    _request env path =
      ({ success := true, data := j, error := none }, [BRAVE_BASE_URL ++ path]) := by
  simp [_request, hk, h]

theorem _request_err (env : Env) (path : String) (e : String)
    (hk : env.BRAVE_API_KEY ≠ "")
    (h : env.net (BRAVE_BASE_URL ++ path) = Except.error e) :
    _request env path =
      ({ success := false, data := Json.null, error := some e }, [BRAVE_BASE_URL ++ path]) := by
  simp [_request, hk, h]

theorem _request_trace (env : Env) (path : String) (hk : env.BRAVE_API_KEY ≠ "") :
    (_request env path).2 = [BRAVE_BASE_URL ++ path] := by
  simp only [_request, if_neg hk]
  cases env.net (BRAVE_BASE_URL ++ path) <;> rfl

/-! # Claim theorems -/

/-- C4: with the credential unset, both tools return the configuration-error
failure (`success=false`, null data, the specific error message) and the list
of issued network requests is empty. -/
theorem brave_c4_no_key_no_network (env : Env) (q : String) (c o : Int)
    (h : env.BRAVE_API_KEY = "") :
    brave_web_search env q c o =
      some ({ success := false, data := Json.null,
              error := some "BRAVE_API_KEY environment variable not set" }, []) ∧
    brave_local_search env q c =
      some ({ success := false, data := Json.null,
              error := some "BRAVE_API_KEY environment variable not set" }, []) := by
  constructor
  · simp [brave_web_search, _request_key_missing env _ h]
  · simp [brave_local_search, _request_key_missing env _ h]

/-- C4 witness: concrete environment with the credential unset. -/
theorem brave_c4_witness :
    brave_web_search envNoKey "x" 3 0 =
      some ({ success := false, data := Json.null,
              error := some "BRAVE_API_KEY environment variable not set" }, []) ∧
    brave_local_search envNoKey "x" 3 =
      some ({ success := false, data := Json.null,
              error := some "BRAVE_API_KEY environment variable not set" }, []) :=
  brave_c4_no_key_no_network envNoKey "x" 3 0 rfl

theorem intercalate_go_ne_empty (s : String) (xs : List String) :
    ∀ acc : String, acc ≠ "" → String.intercalate.go acc s xs ≠ "" := by
  induction xs with
  | nil => intro acc h; simpa [String.intercalate.go] using h
  | cons a as ih =>
      intro acc h
      rw [String.intercalate.go]
      apply ih
      intro hc
      apply h
      apply String.ext
      have := congrArg String.data hc
      simp only [String.data_append] at this
      rcases List.append_eq_nil.mp (List.append_eq_nil.mp this).1 with ⟨h1, _⟩
      exact h1

theorem intercalate_cons_ne_empty (x : String) (xs : List String) (hx : x ≠ "") :
    String.intercalate ", " (x :: xs) ≠ "" := by
  rw [String.intercalate]
  exact intercalate_go_ne_empty ", " xs x hx

theorem filter_str_mapM_asStr (xs : List String) :
    ((xs.map Json.str).filter Json.truthy).mapM Json.asStr
      = some (xs.filter fun s => s != "") := by
  induction xs with
  | nil => rfl
  | cons x xs ih =>
      by_cases hx : x = ""
      · have h1 : Json.truthy (Json.str x) = false := by simp [Json.truthy, hx]
        have h2 : (x != "") = false := by simp [hx]
        rw [List.map_cons, List.filter_cons, List.filter_cons, h1, h2]
        simpa using ih
      · have h1 : Json.truthy (Json.str x) = true := by simp [Json.truthy, hx]
        have h2 : (x != "") = true := by simp [hx]
        rw [List.map_cons, List.filter_cons, List.filter_cons, h1, h2]
        simp only [if_pos trivial]
        rw [List.mapM_cons, ih]
        rfl

/-- C7: the address formatter joins the four components with the exact
separator `", "`, skipping empty components; it returns exactly `"N/A"` when
the address is absent (`None`) or empty, or when every component is empty;
and on the example address it yields `"Springfield, 00000"`. -/
theorem brave_c7_format_address :
    (∀ a b c d : String,
      _format_address (Json.obj [("streetAddress", Json.str a),
          ("addressLocality", Json.str b), ("addressRegion", Json.str c),
          ("postalCode", Json.str d)]) =
        some (if ([a, b, c, d].filter fun s => s != "") = [] then "N/A"
          else String.intercalate ", " ([a, b, c, d].filter fun s => s != ""))) ∧
    _format_address Json.null = some "N/A" ∧
    _format_address (Json.obj []) = some "N/A" ∧
    _format_address (Json.obj [("streetAddress", Json.str ""),
        ("addressLocality", Json.str ""), ("addressRegion", Json.str ""),
        ("postalCode", Json.str "")]) = some "N/A" ∧
    _format_address (Json.obj [("streetAddress", Json.str ""),
        ("addressLocality", Json.str "Springfield"), ("addressRegion", Json.str ""),
        ("postalCode", Json.str "00000")]) = some "Springfield, 00000" := by
  refine ⟨?_, rfl, rfl, rfl, rfl⟩
  intro a b c d
  have key : _format_address (Json.obj [("streetAddress", Json.str a),
      ("addressLocality", Json.str b), ("addressRegion", Json.str c),
      ("postalCode", Json.str d)]) =
      ((([a, b, c, d].map Json.str).filter Json.truthy).mapM Json.asStr).bind
        (fun parts =>
          some (if String.intercalate ", " parts = "" then "N/A"
            else String.intercalate ", " parts)) := rfl
  rw [key, filter_str_mapM_asStr, Option.some_bind]
  cases hp : [a, b, c, d].filter (fun s => s != "") with
  | nil => simp [String.intercalate]
  | cons x rest =>
      have hmem : x ∈ [a, b, c, d].filter (fun s => s != "") := by
        rw [hp]; exact List.mem_cons_self x rest
      have hx : x ≠ "" := by
        have := (List.mem_filter.mp hmem).2
        simpa using this
      simp [intercalate_cons_ne_empty x rest hx]

/-- C6: the request path of `brave_web_search` always carries `count` clamped
into `[1,20]` and `offset` clamped into `[0,9]`; the first request of
`brave_local_search` always carries `count` clamped into `[1,20]`; the clamped
values are in range for every input, which is silently coerced, never
rejected. -/
theorem brave_c6_clamping (env : Env) (q : String) (c o : Int)
    (hk : env.BRAVE_API_KEY ≠ "") :
    (∀ wr tr, brave_web_search env q c o = some (wr, tr) →
        tr = [webSearchURL q (max 1 (min c 20)) (max 0 (min o 9))]) ∧
    (∀ wr tr, brave_local_search env q c = some (wr, tr) →
        tr.head? = some (localSearchURL q (max 1 (min c 20)))) ∧
    1 ≤ max 1 (min c 20) ∧ max 1 (min c 20) ≤ 20 ∧
    0 ≤ max 0 (min o 9) ∧ max 0 (min o 9) ≤ 9 := by
  refine ⟨?_, ?_, le_max_left 1 _, ?_, le_max_left 0 _, ?_⟩
  · intro wr tr h
    rcases hnet : env.net (BRAVE_BASE_URL ++
        webSearchPath q (max 1 (min c 20)) (max 0 (min o 9))) with e | j
    · simp only [brave_web_search, _request_err env _ e hk hnet] at h
      simp only [Bool.false_eq_true, reduceIte, Option.some.injEq, Prod.mk.injEq] at h
      exact h.2.symm
    · simp only [brave_web_search, _request_ok env _ j hk hnet] at h
      simp only [reduceIte] at h
      split at h
      · exact Option.noConfusion h
      · split at h
        · exact Option.noConfusion h
        · split at h
          · exact Option.noConfusion h
          · split at h
            · exact Option.noConfusion h
            · simp only [Option.some.injEq, Prod.mk.injEq] at h
              exact h.2.symm
  · intro wr tr h
    rcases hnet : env.net (BRAVE_BASE_URL ++ localSearchPath q (max 1 (min c 20)))
      with e | j
    · simp only [brave_local_search, _request_err env _ e hk hnet] at h
      simp only [Bool.false_eq_true, reduceIte, Option.some.injEq, Prod.mk.injEq] at h
      rw [← h.2]
      rfl
    · simp only [brave_local_search, _request_ok env _ j hk hnet] at h
      simp only [reduceIte] at h
      split at h
      · exact Option.noConfusion h
      · split at h
        · -- fallback branch
          split at h
          · exact Option.noConfusion h
          · split at h
            · split at h
              · exact Option.noConfusion h
              · split at h
                · exact Option.noConfusion h
                · simp only [Option.some.injEq, Prod.mk.injEq] at h
                  rw [← h.2]
                  rfl
            · simp only [Option.some.injEq, Prod.mk.injEq] at h
              rw [← h.2]
              rfl
        · -- enrichment branch
          split at h
          · split at h
            · exact Option.noConfusion h
            · split at h
              · exact Option.noConfusion h
              · split at h
                · exact Option.noConfusion h
                · split at h
                  · exact Option.noConfusion h
                  · simp only [Option.some.injEq, Prod.mk.injEq] at h
                    rw [← h.2]
                    rfl
          · simp only [Option.some.injEq, Prod.mk.injEq] at h
            rw [← h.2]
            rfl
  · omega
  · omega

/-- C6 witness: a concrete call with out-of-range `count=100`, `offset=-5`
(clamped to 20 and 0). -/
theorem brave_c6_witness :
    (∀ wr tr, brave_web_search envAllFail "x" 100 (-5) = some (wr, tr) →
        tr = [webSearchURL "x" (max 1 (min 100 20)) (max 0 (min (-5) 9))]) ∧
    (∀ wr tr, brave_local_search envAllFail "x" 100 = some (wr, tr) →
        tr.head? = some (localSearchURL "x" (max 1 (min 100 20)))) ∧
    1 ≤ max 1 (min (100 : Int) 20) ∧ max 1 (min (100 : Int) 20) ≤ 20 ∧
    0 ≤ max 0 (min (-5 : Int) 9) ∧ max 0 (min (-5 : Int) 9) ≤ 9 :=
  brave_c6_clamping envAllFail "x" 100 (-5) (by decide)

theorem descriptionsURL_ne_poisURL (ids : List Json) :
    descriptionsURL ids ≠ poisURL ids := by
  intro h
  have h' := congrArg String.length h
  rw [descriptionsURL, poisURL, String.length_append, String.length_append,
    String.length_append, String.length_append,
    show "/local/descriptions?".length = 20 from rfl,
    show "/local/pois?".length = 12 from rfl] at h'
  omega

theorem descriptionsURL_ne_localSearchURL (ids : List Json) (q : String) (c : Int) :
    descriptionsURL ids ≠ localSearchURL q c := by
  intro h
  have h' := congrArg String.data h
  rw [descriptionsURL, localSearchURL, localSearchPath] at h'
  simp only [String.data_append, List.append_assoc] at h'
  have h'' := List.append_cancel_left h'
  simp only [List.cons_append, List.cons.injEq] at h''
  exact absurd h''.2.1 (by decide)

/-- C2: when the collected id list is non-empty and the POI-details request
fails, `brave_local_search` returns that failure unchanged, having issued
exactly the locations request and the POI-details request; the descriptions
URL is not among the issued requests. -/
theorem brave_c2_pois_fail_fast (env : Env) (q : String) (c : Int)
    (j : Json) (ids : List Json) (e : String)
    (hk : env.BRAVE_API_KEY ≠ "")
    (h1 : env.net (localSearchURL q (max 1 (min c 20))) = Except.ok j)
    (hids : locationIdsOf j = some ids)
    (hne : ids ≠ [])
    (h2 : env.net (poisURL ids) = Except.error e) :
    brave_local_search env q c =
      some ({ success := false, data := Json.null, error := some e },
        [localSearchURL q (max 1 (min c 20)), poisURL ids]) ∧
    descriptionsURL ids ∉ [localSearchURL q (max 1 (min c 20)), poisURL ids] := by
  constructor
  · simp only [brave_local_search, _request_ok env _ j hk h1, reduceIte, hids,
      List.isEmpty_eq_false.mpr hne, Bool.false_eq_true,
      _request_err env _ e hk h2]
    rfl
  · intro hmem
    rcases List.mem_cons.mp hmem with hm | hm
    · exact descriptionsURL_ne_localSearchURL ids q (max 1 (min c 20)) hm
    · rcases List.mem_cons.mp hm with hm' | hm'
      · exact descriptionsURL_ne_poisURL ids hm'
      · exact absurd hm' (List.not_mem_nil _)

/-- C2 witness: concrete environment where the locations lookup returns two
ids and the POI-details request fails. -/
theorem brave_c2_witness :
    brave_local_search envPoisFail "x" 3 =
      some ({ success := false, data := Json.null, error := some "poisboom" },
        [localSearchURL "x" (max 1 (min 3 20)), poisURL [Json.str "a", Json.str "b"]]) ∧
    descriptionsURL [Json.str "a", Json.str "b"] ∉
      [localSearchURL "x" (max 1 (min 3 20)), poisURL [Json.str "a", Json.str "b"]] :=
  brave_c2_pois_fail_fast envPoisFail "x" 3 jTwoIds [Json.str "a", Json.str "b"]
    "poisboom" (by decide) rfl rfl (by simp) rfl

theorem dictGet_empty_obj (k v : Json) (h : (Json.obj []).dictGet k = some v) :
    v = Json.null := by
  cases k <;> simp [Json.dictGet] at h <;> exact h.symm

theorem formatPoi_empty_descriptions (poi r : Json)
    (h : formatPoi (Json.obj []) poi = some r) :
    r.get? "description" = some Json.null := by
  simp only [formatPoi] at h
  repeat
    first
    | exact Option.noConfusion h
    | split at h
  all_goals
    injection h with h'
    subst h'
    exact congrArg some (dictGet_empty_obj _ _ (by assumption))

theorem mapM_mem_exists {α β : Type} (f : α → Option β) (xs : List α) (ys : List β)
    (h : xs.mapM f = some ys) : ∀ y ∈ ys, ∃ x ∈ xs, f x = some y := by
  induction xs generalizing ys with
  | nil =>
      simp only [List.mapM_nil, pure, Option.some.injEq] at h
      subst h
      simp
  | cons x xs ih =>
      rw [List.mapM_cons] at h
      cases hx : f x with
      | none => rw [hx] at h; simp at h
      | some y0 =>
          rw [hx] at h
          cases hrest : xs.mapM f with
          | none => rw [hrest] at h; simp at h
          | some ys0 =>
              rw [hrest] at h
              simp only [Option.bind_eq_bind, Option.some_bind, pure,
                Option.some.injEq] at h
              subst h
              intro y hy
              rcases List.mem_cons.mp hy with rfl | hm
              · exact ⟨x, List.mem_cons_self x xs, hx⟩
              · rcases ih ys0 hrest y hm with ⟨x', hx', hf⟩
                exact ⟨x', List.mem_cons_of_mem x hx', hf⟩

/-- C3: when the POI-details request succeeds but the descriptions request
fails, `brave_local_search` still returns `success=true` with the full list
of business records, and every record's `description` field is null. -/
theorem brave_c3_descriptions_nonfatal (env : Env) (q : String) (c : Int)
    (j jp : Json) (ids : List Json) (e : String)
    (pres : Json) (pois results : List Json)
    (hk : env.BRAVE_API_KEY ≠ "")
    (h1 : env.net (localSearchURL q (max 1 (min c 20))) = Except.ok j)
    (hids : locationIdsOf j = some ids)
    (hne : ids ≠ [])
    (h2 : env.net (poisURL ids) = Except.ok jp)
    (h3 : env.net (descriptionsURL ids) = Except.error e)
    (hp1 : jp.getD "results" (Json.arr []) = some pres)
    (hp2 : pres.pyIter = some pois)
    (hp3 : pois.mapM (formatPoi (Json.obj [])) = some results) :
    brave_local_search env q c =
      some ({ success := true, data := Json.arr results, error := none },
        [localSearchURL q (max 1 (min c 20)), poisURL ids, descriptionsURL ids]) ∧
    ∀ r ∈ results, r.get? "description" = some Json.null := by
  constructor
  · simp only [brave_local_search, _request_ok env _ j hk h1, reduceIte, hids,
      List.isEmpty_eq_false.mpr hne, Bool.false_eq_true,
      _request_ok env _ jp hk h2, _request_err env _ e hk h3,
      hp1, hp2, hp3]
    rfl
  · intro r hr
    rcases mapM_mem_exists _ _ _ hp3 r hr with ⟨p, _, hf⟩
    exact formatPoi_empty_descriptions p r hf

/-- C3 witness: concrete environment where both lookups succeed and the
descriptions request fails; the single record has a null description. -/
theorem brave_c3_witness :
    brave_local_search envDescFail "x" 3 =
      some ({ success := true, data := Json.arr [cafeRecord], error := none },
        [localSearchURL "x" (max 1 (min 3 20)), poisURL [Json.str "a", Json.str "b"],
         descriptionsURL [Json.str "a", Json.str "b"]]) ∧
    ∀ r ∈ [cafeRecord], r.get? "description" = some Json.null :=
  brave_c3_descriptions_nonfatal envDescFail "x" 3 jTwoIds jPois
    [Json.str "a", Json.str "b"] "descboom"
    (Json.arr [Json.obj [("id", Json.str "a"), ("name", Json.str "Cafe")]])
    [Json.obj [("id", Json.str "a"), ("name", Json.str "Cafe")]] [cafeRecord]
    (by decide) rfl rfl (by simp) rfl rfl rfl rfl rfl

/-- C8 counterexample: two locations carrying the same id `"a"` produce the
id list `["a", "a"]` — the truthiness filter does not drop duplicates. -/
theorem brave_c8_counterexample :
    locationIdsOf (Json.obj [("locations", Json.obj [("results", Json.arr
      [Json.obj [("id", Json.str "a")], Json.obj [("id", Json.str "a")]])])]) =
      some [Json.str "a", Json.str "a"] ∧
    ¬ (List.Nodup [Json.str "a", Json.str "a"]) := by
  constructor
  · rfl
  · intro hnd
    exact (List.nodup_cons.mp hnd).1 (List.mem_singleton.mpr rfl)

/-- C8 (amended): the collected id list is the ordered list of `id` fields
with falsy values (in particular empty-string ids) dropped by the truthiness
filter; duplicates are preserved. -/
theorem brave_c8_amended_truthiness_filter (locs ids : List Json)
    (h : locs.mapM (fun loc => loc.get? "id") = some ids) :
    locationIdsOf (Json.obj [("locations", Json.obj [("results", Json.arr locs)])]) =
      some (ids.filter Json.truthy) ∧
    (∀ x ∈ ids.filter Json.truthy, x.truthy = true) ∧
    Json.str "" ∉ ids.filter Json.truthy := by
  refine ⟨?_, ?_, ?_⟩
  · have key : locationIdsOf
        (Json.obj [("locations", Json.obj [("results", Json.arr locs)])]) =
        match locs.mapM (fun loc => loc.get? "id") with
        | none => none
        | some ids => some (ids.filter Json.truthy) := rfl
    rw [key, h]
  · intro x hx
    exact (List.mem_filter.mp hx).2
  · intro hx
    have := (List.mem_filter.mp hx).2
    simp [Json.truthy] at this

/-- C8 witness: ids `["a", "", "a"]` collapse to `["a", "a"]` — the empty id
is dropped, the duplicate kept. -/
theorem brave_c8_witness :
    locationIdsOf (Json.obj [("locations", Json.obj [("results", Json.arr
      [Json.obj [("id", Json.str "a")], Json.obj [("id", Json.str "")],
       Json.obj [("id", Json.str "a")]])])]) =
      some ([Json.str "a", Json.str "", Json.str "a"].filter Json.truthy) ∧
    (∀ x ∈ [Json.str "a", Json.str "", Json.str "a"].filter Json.truthy,
      x.truthy = true) ∧
    Json.str "" ∉ [Json.str "a", Json.str "", Json.str "a"].filter Json.truthy :=
  brave_c8_amended_truthiness_filter
    [Json.obj [("id", Json.str "a")], Json.obj [("id", Json.str "")],
     Json.obj [("id", Json.str "a")]]
    [Json.str "a", Json.str "", Json.str "a"] rfl

/-- C9 counterexample: a POI whose opening-hours list is the non-empty list
`[""]` — the claim demands `hours` be the joined string `""`, but the code
stores null (the join is empty, so `or None` replaces it). -/
theorem brave_c9_counterexample :
    formatPoi (Json.obj []) poiEmptyHour =
      some (Json.obj [("name", Json.str "Unknown"), ("address", Json.str "N/A"),
        ("phone", Json.null), ("rating", Json.null), ("rating_count", Json.num 0),
        ("price_range", Json.null), ("hours", Json.null),
        ("description", Json.null)]) ∧
    ([Json.str ""] : List Json) ≠ [] ∧
    String.intercalate ", " [""] = "" := by
  exact ⟨rfl, by simp, rfl⟩

theorem record_get_hours (nm ad ph rt rc pr hrs ds : Json) :
    (Json.obj [("name", nm), ("address", ad), ("phone", ph), ("rating", rt),
      ("rating_count", rc), ("price_range", pr), ("hours", hrs),
      ("description", ds)]).get? "hours" = some hrs := rfl

/-- C9 (amended): `hours` is the `", "`-join of the opening-hours strings
whenever that join is non-empty, and null whenever the join is empty (in
particular when the list is empty or missing); it is never the empty
string. -/
theorem brave_c9_amended_hours_join (dm poi r oh : Json) (items : List Json)
    (ss : List String)
    (hfmt : formatPoi dm poi = some r)
    (hoh : poi.getD "openingHours" (Json.arr []) = some oh)
    (hit : oh.pyIter = some items)
    (hss : items.mapM Json.asStr = some ss) :
    r.get? "hours" = some (if String.intercalate ", " ss = "" then Json.null
      else Json.str (String.intercalate ", " ss)) ∧
    r.get? "hours" ≠ some (Json.str "") := by
  simp only [formatPoi, hoh, hit, hss] at hfmt
  repeat
    first
    | exact Option.noConfusion hfmt
    | split at hfmt
  all_goals
    injection hfmt with h'
    subst h'
  all_goals
    rw [record_get_hours]
  all_goals
    first
    | (rw [if_pos (by assumption)]
       refine ⟨rfl, ?_⟩
       intro hcon
       injection hcon with h2
       exact Json.noConfusion h2)
    | (rw [if_neg (by assumption)]
       refine ⟨rfl, ?_⟩
       intro hcon
       injection hcon with h2
       injection h2 with h3
       exact absurd h3 (by assumption))

/-- C9 witness: opening hours `["Mon", "Tue"]` yield `hours = "Mon, Tue"`. -/
theorem brave_c9_witness :
    twoHoursRecord.get? "hours" =
      some (if String.intercalate ", " ["Mon", "Tue"] = "" then Json.null
        else Json.str (String.intercalate ", " ["Mon", "Tue"])) ∧
    twoHoursRecord.get? "hours" ≠ some (Json.str "") :=
  brave_c9_amended_hours_join (Json.obj []) poiTwoHours twoHoursRecord
    (Json.arr [Json.str "Mon", Json.str "Tue"])
    [Json.str "Mon", Json.str "Tue"] ["Mon", "Tue"] rfl rfl rfl rfl

/-- C10: when a POI's `rating` field is null or absent, the record is still
built (the falsy rating is replaced by an empty dict), with a null `rating`
and a zero `rating_count`. -/
theorem brave_c10_null_rating (dm : Json) (fs : List (String × Json)) (r : Json)
    (hrate : (fs.lookup "rating").getD Json.null = Json.null)
    (hfmt : formatPoi dm (Json.obj fs) = some r) :
    r.get? "rating" = some Json.null ∧ r.get? "rating_count" = some (Json.num 0) := by
  have htr : Json.truthy ((fs.lookup "rating").getD (Json.obj [])) = false := by
    rcases hl : fs.lookup "rating" with _ | v
    · rfl
    · rw [hl] at hrate
      simp only [Option.getD_some] at hrate
      subst hrate
      rfl
  have hr : (Json.obj fs).getD "rating" (Json.obj []) =
      some ((fs.lookup "rating").getD (Json.obj [])) := rfl
  simp only [formatPoi, hr, htr, Bool.false_eq_true, reduceIte,
    show (Json.obj ([] : List (String × Json))).get? "ratingValue" =
      some Json.null from rfl,
    show (Json.obj ([] : List (String × Json))).getD "ratingCount" (Json.num 0) =
      some (Json.num 0) from rfl] at hfmt
  repeat
    first
    | exact Option.noConfusion hfmt
    | split at hfmt
  all_goals
    injection hfmt with h'
    subst h'
    exact ⟨rfl, rfl⟩

/-- C10 witness: a POI with an explicit null rating still yields a record. -/
theorem brave_c10_witness :
    (Json.obj [("name", Json.str "Bar"), ("address", Json.str "N/A"),
      ("phone", Json.null), ("rating", Json.null), ("rating_count", Json.num 0),
      ("price_range", Json.null), ("hours", Json.null),
      ("description", Json.null)]).get? "rating" = some Json.null ∧
    (Json.obj [("name", Json.str "Bar"), ("address", Json.str "N/A"),
      ("phone", Json.null), ("rating", Json.null), ("rating_count", Json.num 0),
      ("price_range", Json.null), ("hours", Json.null),
      ("description", Json.null)]).get? "rating_count" = some (Json.num 0) :=
  brave_c10_null_rating (Json.obj []) [("rating", Json.null), ("name", Json.str "Bar")]
    (Json.obj [("name", Json.str "Bar"), ("address", Json.str "N/A"),
      ("phone", Json.null), ("rating", Json.null), ("rating_count", Json.num 0),
      ("price_range", Json.null), ("hours", Json.null),
      ("description", Json.null)]) rfl rfl

theorem _request_result_shape (env : Env) (p : String) :
    ((_request env p).1.success = false →
      (_request env p).1.data = Json.null ∧ (_request env p).1.error ≠ none) ∧
    ((_request env p).1.success = true → (_request env p).1.error = none) := by
  by_cases hk : env.BRAVE_API_KEY = ""
  · simp [_request, hk]
  · rcases hnet : env.net (BRAVE_BASE_URL ++ p) with e | j <;>
      simp [_request, hk, hnet]

theorem shape_update_data (x : BraveResult) (d : Json) (hd : d ≠ Json.null)
    (hs : x.success = true) (he : x.error = none) :
    (({ x with data := d }).success = false →
      ({ x with data := d }).data = Json.null ∧ ({ x with data := d }).error ≠ none) ∧
    (({ x with data := d }).success = true →
      ({ x with data := d }).data ≠ Json.null ∧ ({ x with data := d }).error = none) := by
  refine ⟨fun hf => ?_, fun _ => ⟨hd, he⟩⟩
  have hf' : x.success = false := hf
  rw [hs] at hf'
  exact Bool.noConfusion hf'

theorem brave_web_search_shape (env : Env) (q : String) (c o : Int)
    (wr : BraveResult) (tr : List String)
    (h : brave_web_search env q c o = some (wr, tr)) :
    (wr.success = false → wr.data = Json.null ∧ wr.error ≠ none) ∧
    (wr.success = true → wr.data ≠ Json.null ∧ wr.error = none) := by
  simp only [brave_web_search] at h
  split at h
  case isTrue hs =>
    repeat
      first
      | exact Option.noConfusion h
      | split at h
    simp only [Option.some.injEq, Prod.mk.injEq] at h
    obtain ⟨h1, -⟩ := h
    subst h1
    exact shape_update_data _ _ (fun hc => Json.noConfusion hc) hs
      ((_request_result_shape env _).2 hs)
  case isFalse hs =>
    simp only [Option.some.injEq, Prod.mk.injEq] at h
    obtain ⟨h1, -⟩ := h
    subst h1
    refine ⟨fun _ => (_request_result_shape env _).1 (Bool.not_eq_true _ ▸ hs), ?_⟩
    intro ht
    exact absurd ht hs

theorem brave_local_search_shape (env : Env) (q : String) (c : Int)
    (wr : BraveResult) (tr : List String)
    (h : brave_local_search env q c = some (wr, tr)) :
    (wr.success = false → wr.data = Json.null ∧ wr.error ≠ none) ∧
    (wr.success = true → wr.data ≠ Json.null ∧ wr.error = none) := by
  simp only [brave_local_search] at h
  split at h
  case isTrue hs1 =>
    split at h
    · exact Option.noConfusion h
    · split at h
      · -- fallback branch
        split at h
        · exact Option.noConfusion h
        · split at h
          case isTrue hws =>
            split at h
            · exact Option.noConfusion h
            · split at h
              · exact Option.noConfusion h
              · simp only [Option.some.injEq, Prod.mk.injEq] at h
                obtain ⟨h1, -⟩ := h
                subst h1
                exact shape_update_data _ _ (fun hc => Json.noConfusion hc) hws
                  ((brave_web_search_shape _ _ _ _ _ _ (by assumption)).2 hws).2
          case isFalse hws =>
            simp only [Option.some.injEq, Prod.mk.injEq] at h
            obtain ⟨h1, -⟩ := h
            subst h1
            refine ⟨fun _ => (brave_web_search_shape _ _ _ _ _ _
              (by assumption)).1 (Bool.not_eq_true _ ▸ hws),
              fun ht => absurd ht hws⟩
      · -- enrichment branch
        split at h
        case isTrue hps =>
          split at h
          · exact Option.noConfusion h
          · split at h
            · exact Option.noConfusion h
            · split at h
              · exact Option.noConfusion h
              · split at h
                · exact Option.noConfusion h
                · simp only [Option.some.injEq, Prod.mk.injEq] at h
                  obtain ⟨h1, -⟩ := h
                  subst h1
                  exact ⟨fun hf => Bool.noConfusion hf,
                    fun _ => ⟨fun hc => Json.noConfusion hc, rfl⟩⟩
        case isFalse hps =>
          simp only [Option.some.injEq, Prod.mk.injEq] at h
          obtain ⟨h1, -⟩ := h
          subst h1
          refine ⟨fun _ => (_request_result_shape env _).1
            (Bool.not_eq_true _ ▸ hps), fun ht => absurd ht hps⟩
  case isFalse hs1 =>
    simp only [Option.some.injEq, Prod.mk.injEq] at h
    obtain ⟨h1, -⟩ := h
    subst h1
    refine ⟨fun _ => (_request_result_shape env _).1
      (Bool.not_eq_true _ ▸ hs1), fun ht => absurd ht hs1⟩

/-- C5: every result returned by either tool satisfies the three-field
contract: `success=false` pairs with null data and a non-null error string;
`success=true` pairs with non-null data and a null error. -/
theorem brave_c5_result_contract (env : Env) (q : String) (c o : Int)
    (wr : BraveResult) (tr : List String)
    (h : brave_web_search env q c o = some (wr, tr) ∨
      brave_local_search env q c = some (wr, tr)) :
    (wr.success = false → wr.data = Json.null ∧ wr.error ≠ none) ∧
    (wr.success = true → wr.data ≠ Json.null ∧ wr.error = none) := by
  rcases h with h | h
  · exact brave_web_search_shape env q c o wr tr h
  · exact brave_local_search_shape env q c wr tr h

/-- C5 witness: the failure result of a concrete web search against a network
where every request fails. -/
theorem brave_c5_witness :
    (({ success := false, data := Json.null, error := some "boom" } :
        BraveResult).success = false →
      ({ success := false, data := Json.null, error := some "boom" } :
        BraveResult).data = Json.null ∧
      ({ success := false, data := Json.null, error := some "boom" } :
        BraveResult).error ≠ none) ∧
    (({ success := false, data := Json.null, error := some "boom" } :
        BraveResult).success = true →
      ({ success := false, data := Json.null, error := some "boom" } :
        BraveResult).data ≠ Json.null ∧
      ({ success := false, data := Json.null, error := some "boom" } :
        BraveResult).error = none) :=
  brave_c5_result_contract envAllFail "x" 10 0
    { success := false, data := Json.null, error := some "boom" }
    [webSearchURL "x" 10 0] (Or.inl rfl)

theorem webHitOf_shape (x y : Json) (h : webHitOf x = some y) :
    ∃ t d u, y = Json.obj [("title", t), ("description", d), ("url", u)] := by
  cases x
  case obj fs =>
    simp only [webHitOf, Json.getD, Option.bind_eq_bind, Option.some_bind,
      Option.some.injEq] at h
    exact ⟨_, _, _, h.symm⟩
  all_goals
    simp only [webHitOf, Json.getD, Option.bind_eq_bind, Option.none_bind] at h
    exact Option.noConfusion h

theorem brave_web_search_success_hits (env : Env) (q : String) (c o : Int)
    (wr : BraveResult) (tr : List String)
    (h : brave_web_search env q c o = some (wr, tr)) (hs : wr.success = true) :
    ∃ hits, wr.data = Json.arr hits ∧
      ∀ r ∈ hits, ∃ t d u,
        r = Json.obj [("title", t), ("description", d), ("url", u)] := by
  simp only [brave_web_search] at h
  split at h
  case isTrue hs1 =>
    split at h
    · exact Option.noConfusion h
    · split at h
      · exact Option.noConfusion h
      · split at h
        · exact Option.noConfusion h
        · split at h
          · exact Option.noConfusion h
          · rename_i hits heq
            simp only [Option.some.injEq, Prod.mk.injEq] at h
            obtain ⟨h1, -⟩ := h
            subst h1
            refine ⟨hits, rfl, ?_⟩
            intro r hr
            rcases mapM_mem_exists _ _ _ heq r hr with ⟨x, -, hx⟩
            exact webHitOf_shape x r hx
  case isFalse hs1 =>
    simp only [Option.some.injEq, Prod.mk.injEq] at h
    obtain ⟨h1, -⟩ := h
    subst h1
    exact absurd hs hs1

theorem mapM_fallbackRemap_of_shape (hits : List Json)
    (h : ∀ r ∈ hits, ∃ t d u,
      r = Json.obj [("title", t), ("description", d), ("url", u)]) :
    ∃ mapped, hits.mapM fallbackRemap = some mapped ∧
      ∀ m ∈ mapped, ∃ n d,
        m = Json.obj [("name", n), ("address", Json.str "N/A"),
          ("description", d)] := by
  induction hits with
  | nil => exact ⟨[], rfl, by simp⟩
  | cons x xs ih =>
      rcases h x (List.mem_cons_self x xs) with ⟨t, d, u, rfl⟩
      rcases ih (fun r hr => h r (List.mem_cons_of_mem _ hr)) with ⟨mapped, hm, hshape⟩
      refine ⟨Json.obj [("name", t), ("address", Json.str "N/A"),
        ("description", d)] :: mapped, ?_, ?_⟩
      · rw [List.mapM_cons,
          show fallbackRemap (Json.obj [("title", t), ("description", d), ("url", u)]) =
            some (Json.obj [("name", t), ("address", Json.str "N/A"),
              ("description", d)]) from rfl, hm]
        rfl
      · intro m hm2
        rcases List.mem_cons.mp hm2 with rfl | hmem
        · exact ⟨t, d, rfl⟩
        · exact hshape m hmem

/-- C1: when the locations-filtered first request succeeds but yields zero
location ids, `brave_local_search` delegates to `brave_web_search` with the
same query and the same clamped count: an exception propagates, a failure is
returned unchanged, and a success is returned with each hit remapped to a
record carrying exactly the keys name (from the title), address (forced to
`"N/A"`) and description. -/
theorem brave_c1_fallback (env : Env) (q : String) (c : Int) (j : Json)
    (hk : env.BRAVE_API_KEY ≠ "")
    (h1 : env.net (localSearchURL q (max 1 (min c 20))) = Except.ok j)
    (hids : locationIdsOf j = some []) :
    (brave_web_search env q (max 1 (min c 20)) 0 = none →
      brave_local_search env q c = none) ∧
    (∀ wr trW, brave_web_search env q (max 1 (min c 20)) 0 = some (wr, trW) →
      wr.success = false →
      brave_local_search env q c =
        some (wr, localSearchURL q (max 1 (min c 20)) :: trW)) ∧
    (∀ wr trW, brave_web_search env q (max 1 (min c 20)) 0 = some (wr, trW) →
      wr.success = true →
      ∃ hits mapped, wr.data = Json.arr hits ∧
        hits.mapM fallbackRemap = some mapped ∧
        (∀ m ∈ mapped, ∃ n d,
          m = Json.obj [("name", n), ("address", Json.str "N/A"),
            ("description", d)]) ∧
        brave_local_search env q c =
          some ({ wr with data := Json.arr mapped },
            localSearchURL q (max 1 (min c 20)) :: trW)) := by
  refine ⟨?_, ?_, ?_⟩
  · intro hnone
    simp only [brave_local_search, _request_ok env _ j hk h1, reduceIte, hids,
      List.isEmpty_nil, hnone]
  · intro wr trW hw hfail
    simp only [brave_local_search, _request_ok env _ j hk h1, reduceIte, hids,
      List.isEmpty_nil, hw, hfail, Bool.false_eq_true, List.cons_append,
      List.nil_append]
    rfl
  · intro wr trW hw hsucc
    rcases brave_web_search_success_hits env q _ 0 wr trW hw hsucc
      with ⟨hits, hdata, hshape⟩
    rcases mapM_fallbackRemap_of_shape hits hshape with ⟨mapped, hm, hmshape⟩
    refine ⟨hits, mapped, hdata, hm, hmshape, ?_⟩
    simp only [brave_local_search, _request_ok env _ j hk h1, reduceIte, hids,
      List.isEmpty_nil, hw, hsucc, hdata, Json.pyIter, hm, List.cons_append,
      List.nil_append]
    rfl

/-- C1 witness: concrete fallback run — zero ids, then one web hit remapped
to a name/address/description record. -/
theorem brave_c1_witness :
    (brave_web_search envFallback "x" (max 1 (min 3 20)) 0 = none →
      brave_local_search envFallback "x" 3 = none) ∧
    (∀ wr trW, brave_web_search envFallback "x" (max 1 (min 3 20)) 0 = some (wr, trW) →
      wr.success = false →
      brave_local_search envFallback "x" 3 =
        some (wr, localSearchURL "x" (max 1 (min 3 20)) :: trW)) ∧
    (∀ wr trW, brave_web_search envFallback "x" (max 1 (min 3 20)) 0 = some (wr, trW) →
      wr.success = true →
      ∃ hits mapped, wr.data = Json.arr hits ∧
        hits.mapM fallbackRemap = some mapped ∧
        (∀ m ∈ mapped, ∃ n d,
          m = Json.obj [("name", n), ("address", Json.str "N/A"),
            ("description", d)]) ∧
        brave_local_search envFallback "x" 3 =
          some ({ wr with data := Json.arr mapped },
            localSearchURL "x" (max 1 (min 3 20)) :: trW)) :=
  brave_c1_fallback envFallback "x" 3 jNoLocations (by decide) rfl rfl
